import Mathlib

/-!
# Lithium diffusion simulation (`script.js`)

A shallow embedding of the simulation core of `script.js`: the module-level
variables become one `State` record, and every function that assigns to them
becomes a function `State → State`.

JavaScript numbers are modelled by a linear ordered field `α` (the reals, or
the rationals when a value has to be computed); rounding, `NaN` and the
infinities are outside that model.  The three transcendental functions of the
`Math` object which the script calls are collected in `MathLib`.

Where a statement is about the doubles themselves, the arithmetic of
`calculateDiffusionTime` (number literals, `*`, `/`) is evaluated in `F64`, a
model of the non-negative IEEE 754 binary64 values with round-to-nearest,
ties-to-even.

The DOM, the canvas and the chart are output only (`updateUI`, `updateStats`,
`updateChartType`, `drawAnimation`, `drawParticle`, `formatTime`): they read
the variables and never assign to them, so they do not occur in the model.

Division by zero is outside the model as well (JavaScript gives an infinity or
`NaN`, a field gives `0`): the statements that divide assume positive radii and
a positive diffusion coefficient.
-/

namespace LithiumDiffusion

/-- The functions of the JavaScript `Math` object used by the script:
`Math.log10`, `Math.pow` and `Math.sqrt`. -/
structure MathLib (α : Type) where
  log10 : α → α
  pow : α → α → α
  sqrt : α → α

/-- The animation particles `baselineParticle` and `currentParticle`.  The
fields `x`, `y` (canvas layout) and `color` are only read by the drawing code. -/
structure Particle (α : Type) where
  radius : α
  progress : α
  speed : α

/-- The object `diffusionData`. -/
structure DiffusionData (α : Type) where
  labels : List α
  times : List α

/-- The object `improvementData`. -/
structure ImprovementData (α : Type) where
  labels : List α
  improvement : List α

/-- The module-level variables of `script.js`.  `animationFrame` records
whether the variable holds a frame handle (it is `null` at first; the handles
returned by `requestAnimationFrame` are non-zero, hence truthy). -/
structure State (α : Type) where
  isRunning : Bool
  currentIndex : Nat
  animationFrame : Bool
  maxParticleSize : α
  minParticleSize : α
  baselineSize : α
  currentDiffusionCoeff : α
  radii : List α
  diffusionData : DiffusionData α
  improvementData : ImprovementData α
  baselineParticle : Particle α
  currentParticle : Particle α

/-- The function `calculateDiffusionTime`: t = L²/D, with the radius converted
from nm to m.  It uses a number literal, `*` and `/` only, so it is defined for
every number type that has them. -/
def calculateDiffusionTime {α : Type} [Mul α] [Div α] [OfScientific α] (radiusNm D : α) : α :=
  let radiusM := radiusNm * 1e-9
  (radiusM * radiusM) / D

/-- The value that `animate` pushes onto `improvementData.improvement`
(lines 309 to 313): `time`, `baselineTime` and their quotient. -/
def improvementFactor {α : Type} [Mul α] [Div α] [OfScientific α]
    (radius baselineSize D : α) : α :=
  let time := calculateDiffusionTime radius D
  let baselineTime := calculateDiffusionTime baselineSize D
  baselineTime / time

/-- The non-negative IEEE 754 binary64 values, the numbers of JavaScript:
`fin u` is the finite value `u * 2^(-1074)` (every finite double is a multiple
of the least subnormal `2^(-1074)`), `inf` is `Infinity`, `nan` is `NaN`.
The negative values are left out: products and quotients of non-negative
values are never negative. -/
inductive F64 where
  | fin (u : Nat)
  | inf
  | nan
  deriving DecidableEq

/-- The quotient `a / b` rounded to the nearest integer, a tie to the even one. -/
def F64.divRoundEven (a b : Nat) : Nat :=
  let t := a / b
  let r := a % b
  if 2 * r > b ∨ (2 * r = b ∧ t % 2 = 1) then t + 1 else t

/-- Auxiliary to `F64.log2`: `fuel` bounds the number of halvings. -/
def F64.log2Aux : Nat → Nat → Nat
  | 0, _ => 0
  | fuel + 1, n => if n < 2 then 0 else F64.log2Aux fuel (n / 2) + 1

/-- The position of the leading bit of `n`, that is `Nat.log2 n`, by halving. -/
def F64.log2 (n : Nat) : Nat := F64.log2Aux n n

/-- The double nearest to the rational `num / den` (`den > 0`), ties to even.
With `y = num / den * 2^1074`, the value in units of the least subnormal: below
`2^53` units the doubles are the integers `u`; from there on `y` keeps 53
significant bits, `s` being the number of bits dropped.  A rounded value of
`2^1024` (`2^2098` units) or more is `Infinity`. -/
def F64.round (num den : Nat) : F64 :=
  let N := num * 2 ^ 1074
  let q := N / den
  let s := if q < 2 ^ 53 then 0 else F64.log2 q - 52
  let u := F64.divRoundEven N (den * 2 ^ s) * 2 ^ s
  if u < 2 ^ 2098 then F64.fin u else F64.inf

/-- The product of two doubles: the exact product, rounded; `0 * Infinity` is `NaN`. -/
def F64.mul : F64 → F64 → F64
  | F64.fin a, F64.fin b => F64.round (a * b) (2 ^ 2148)
  | F64.fin a, F64.inf => if a = 0 then F64.nan else F64.inf
  | F64.inf, F64.fin b => if b = 0 then F64.nan else F64.inf
  | F64.inf, F64.inf => F64.inf
  | _, _ => F64.nan

/-- The quotient of two doubles: the exact quotient, rounded; `x / 0` is
`Infinity` for `x > 0`, and `0 / 0` and `Infinity / Infinity` are `NaN`. -/
def F64.div : F64 → F64 → F64
  | F64.fin a, F64.fin b =>
    if b = 0 then (if a = 0 then F64.nan else F64.inf) else F64.round a b
  | F64.fin _, F64.inf => F64.fin 0
  | F64.inf, F64.fin _ => F64.inf
  | _, _ => F64.nan

instance : Mul F64 := ⟨F64.mul⟩

instance : Div F64 := ⟨F64.div⟩

/-- An integer literal denotes the nearest double. -/
instance (n : Nat) : OfNat F64 n := ⟨F64.round n 1⟩

/-- A decimal literal `m e-k` or `m ek` denotes the nearest double. -/
instance : OfScientific F64 where
  ofScientific m s e := if s then F64.round m (10 ^ e) else F64.round (m * 10 ^ e) 1

section Core

variable {α : Type} [LinearOrderedField α]

/-- The constant `steps` of `generateRadii`. -/
def steps : Nat := 100

/-- The function `generateRadii`: the loop `for (let i = 0; i <= steps; i++)` pushes one
value for each `i` of `0, 1, ..., steps`. -/
def generateRadii (M : MathLib α) (minParticleSize maxParticleSize : α) : List α :=
  let minLog := M.log10 minParticleSize
  let maxLog := M.log10 maxParticleSize
  (List.range (steps + 1)).map fun (i : Nat) =>
    let logValue := minLog + (maxLog - minLog) * ((i : α) / (steps : α))
    M.pow 10 logValue

/-- The expression `radii[Math.min(currentIndex, radii.length - 1)] || minParticleSize`:
an empty array gives index `-1`, hence `undefined`, and a falsy entry (zero)
falls through to `minParticleSize` as well. -/
def currentRadiusOf (s : State α) : α :=
  match s.radii with
  | [] => s.minParticleSize
  | r :: rs =>
    match (r :: rs)[min s.currentIndex ((r :: rs).length - 1)]? with
    | some v => if v = 0 then s.minParticleSize else v
    | none => s.minParticleSize

/-- The function `updateParticleProperties`; the two particles are the only
variables it assigns to. -/
def updateParticleProperties (M : MathLib α) (s : State α) : State α :=
  let baselineTime := calculateDiffusionTime s.baselineSize s.currentDiffusionCoeff
  let currentRadius := currentRadiusOf s
  let currentTime := calculateDiffusionTime currentRadius s.currentDiffusionCoeff
  let maxVisualRadius : α := 60
  let minVisualRadius : α := 10
  let baselineParticle : Particle α :=
    { s.baselineParticle with radius := maxVisualRadius * 0.8, speed := 0.003 }
  let sizeRatio := currentRadius / s.baselineSize
  let timeRatio := baselineTime / currentTime
  let currentParticle : Particle α :=
    { s.currentParticle with
        radius := max minVisualRadius (maxVisualRadius * sizeRatio * 2),
        speed := 0.003 * M.sqrt timeRatio }
  { s with baselineParticle := baselineParticle, currentParticle := currentParticle }

/-- The function `updateAnimation`, without its call of `drawAnimation`. -/
def updateAnimation (s : State α) : State α :=
  if s.isRunning = false then s
  else
    let bp := s.baselineParticle.progress + s.baselineParticle.speed
    let cp := s.currentParticle.progress + s.currentParticle.speed
    { s with
        baselineParticle := { s.baselineParticle with progress := if bp > 1 then 0 else bp },
        currentParticle := { s.currentParticle with progress := if cp > 1 then 0 else cp } }

/-- The function `animate`: one call of the animation loop.  The guard returns
early with `isRunning = false`; otherwise one point is pushed onto each of the
four series, the particles are refreshed on every third index and on the last
one, `currentIndex` is incremented and the next frame is requested. -/
def animate (M : MathLib α) (s : State α) : State α :=
  if h : s.isRunning = false ∨ s.currentIndex ≥ s.radii.length then
    { s with isRunning := false }
  else
    let radius := s.radii.get ⟨s.currentIndex, by omega⟩
    let time := calculateDiffusionTime radius s.currentDiffusionCoeff
    let baselineTime := calculateDiffusionTime s.baselineSize s.currentDiffusionCoeff
    let improvementFactor := baselineTime / time
    let s1 : State α :=
      { s with
          diffusionData :=
            { labels := s.diffusionData.labels ++ [radius],
              times := s.diffusionData.times ++ [time] },
          improvementData :=
            { labels := s.improvementData.labels ++ [radius],
              improvement := s.improvementData.improvement ++ [improvementFactor] } }
    let s2 :=
      if s1.currentIndex % 3 = 0 ∨ s1.currentIndex = s1.radii.length - 1 then
        updateParticleProperties M s1
      else s1
    let s3 := updateAnimation s2
    { s3 with currentIndex := s3.currentIndex + 1, animationFrame := true }

/-- The function `toggleSimulation`: an empty `radii` is generated first, the
flag is flipped, and on start `animate` is called at once.  On pause the
pending frame is cancelled, which assigns to no variable. -/
def toggleSimulation (M : MathLib α) (s : State α) : State α :=
  let s1 :=
    if s.radii.length = 0 then
      { s with radii := generateRadii M s.minParticleSize s.maxParticleSize }
    else s
  let s2 := { s1 with isRunning := !s1.isRunning }
  if s2.isRunning then animate M s2 else s2

/-- The function `resetSimulation`. -/
def resetSimulation (M : MathLib α) (s : State α) : State α :=
  let s1 : State α :=
    { s with
        isRunning := false,
        currentIndex := 0,
        diffusionData := { labels := [], times := [] },
        improvementData := { labels := [], improvement := [] } }
  let s2 := { s1 with radii := generateRadii M s1.minParticleSize s1.maxParticleSize }
  let s3 : State α :=
    { s2 with
        baselineParticle := { s2.baselineParticle with progress := 0 },
        currentParticle := { s2.currentParticle with progress := 0 } }
  updateParticleProperties M s3

/-- The values of the module-level variables before any code has run. -/
def initialState : State α where
  isRunning := false
  currentIndex := 0
  animationFrame := false
  maxParticleSize := 1000
  minParticleSize := 1
  baselineSize := 10000
  currentDiffusionCoeff := 1e-14
  radii := []
  diffusionData := { labels := [], times := [] }
  improvementData := { labels := [], improvement := [] }
  baselineParticle := { radius := 0, progress := 0, speed := 0 }
  currentParticle := { radius := 0, progress := 0, speed := 0 }

/-- The `DOMContentLoaded` handler: `initAnimationCanvas` calls
`updateParticleProperties`, then `radii = generateRadii()`. -/
def pageLoad (M : MathLib α) : State α :=
  let s := updateParticleProperties M initialState
  { s with radii := generateRadii M s.minParticleSize s.maxParticleSize }

/-- The `change` handler of the `maxParticleSize` input; `value` is the result
of `parseFloat`, with `none` for `NaN` (every comparison with `NaN` is false). -/
def onMaxParticleSizeChange (M : MathLib α) (value : Option α) (s : State α) : State α :=
  match value with
  | some v =>
    if v ≥ 10 ∧ v ≤ 10000 then
      let s1 := { s with maxParticleSize := v }
      if s1.isRunning = false then resetSimulation M s1 else s1
    else s
  | none => s

/-- The `change` handler of the `minParticleSize` input. -/
def onMinParticleSizeChange (M : MathLib α) (value : Option α) (s : State α) : State α :=
  match value with
  | some v =>
    if v ≥ 0.1 ∧ v ≤ 1000 ∧ v < s.maxParticleSize then
      let s1 := { s with minParticleSize := v }
      if s1.isRunning = false then resetSimulation M s1 else s1
    else s
  | none => s

/-- The operations of the stepper: a click on the toggle button, one call of
`animate` by the frame scheduler, a click on the reset button. -/
inductive Op where
  | toggle
  | tick
  | reset
  deriving DecidableEq

/-- The effect of one operation. -/
def Op.apply (M : MathLib α) (s : State α) : Op → State α
  | Op.toggle => toggleSimulation M s
  | Op.tick => animate M s
  | Op.reset => resetSimulation M s

/-- The effect of a sequence of operations, first to last. -/
def runOps (M : MathLib α) (ops : List Op) (s : State α) : State α :=
  ops.foldl (Op.apply M) s

/-- The operations that make up `N` ticks from the idle state: the click on
start runs the first call of `animate`, each later frame one more. -/
def ticksFromIdle : Nat → List Op
  | 0 => []
  | n + 1 => Op.toggle :: List.replicate n Op.tick

/-- A `change` event on one of the two particle-size inputs, with the parsed value. -/
inductive SizeChange (α : Type) where
  | maxSize (value : Option α)
  | minSize (value : Option α)

/-- The handler that a `change` event runs. -/
def SizeChange.apply (M : MathLib α) (s : State α) : SizeChange α → State α
  | SizeChange.maxSize v => onMaxParticleSizeChange M v s
  | SizeChange.minSize v => onMinParticleSizeChange M v s

/-- The effect of a sequence of `change` events, first to last. -/
def runChanges (M : MathLib α) (evs : List (SizeChange α)) (s : State α) : State α :=
  evs.foldl (SizeChange.apply M) s

/-- The four series have the length `currentIndex`. -/
def SeriesInSync (s : State α) : Prop :=
  s.diffusionData.labels.length = s.currentIndex ∧
  s.diffusionData.times.length = s.currentIndex ∧
  s.improvementData.labels.length = s.currentIndex ∧
  s.improvementData.improvement.length = s.currentIndex

end Core

/-- The `Math` object over the real numbers: `Math.log10` is the logarithm to
base 10, `Math.pow` the real power, `Math.sqrt` the real square root.  These are
functions of the JavaScript runtime, not of the script; every definition taken
from the script is above and is executable for any `MathLib`. -/
noncomputable def realMath : MathLib ℝ where
  log10 := Real.logb 10
  pow := fun b x => b ^ x
  sqrt := Real.sqrt

section Arithmetic

variable {α : Type} [LinearOrderedField α]

theorem nm_pos : (0 : α) < 1e-9 := by norm_num

theorem calculateDiffusionTime_eq (r D : α) :
    calculateDiffusionTime r D = (r * 1e-9) ^ 2 / D := by
  simp only [calculateDiffusionTime, pow_two]

theorem calculateDiffusionTime_pos {r D : α} (hr : r ≠ 0) (hD : 0 < D) :
    0 < calculateDiffusionTime r D := by
  rw [calculateDiffusionTime_eq]
  have h : r * (1e-9 : α) ≠ 0 := mul_ne_zero hr (ne_of_gt nm_pos)
  positivity

theorem calculateDiffusionTime_ratio {r b D : α} (hr : r ≠ 0) (hD : D ≠ 0) :
    calculateDiffusionTime b D / calculateDiffusionTime r D = (b / r) ^ 2 := by
  rw [calculateDiffusionTime_eq, calculateDiffusionTime_eq]
  have h : (1e-9 : α) ≠ 0 := ne_of_gt nm_pos
  field_simp
  ring

theorem calculateDiffusionTime_lt_of_radius_lt {r₁ r₂ D : α} (hD : 0 < D) (h₁ : 0 < r₁)
    (h : r₁ < r₂) : calculateDiffusionTime r₁ D < calculateDiffusionTime r₂ D := by
  rw [calculateDiffusionTime_eq, calculateDiffusionTime_eq]
  have hc : (0 : α) < 1e-9 := nm_pos
  have h1 : r₁ * (1e-9 : α) < r₂ * 1e-9 := mul_lt_mul_of_pos_right h hc
  have h0 : 0 ≤ r₁ * (1e-9 : α) := le_of_lt (mul_pos h₁ hc)
  exact div_lt_div_of_pos_right (pow_lt_pow_left₀ h1 h0 (by decide)) hD

theorem calculateDiffusionTime_lt_of_coeff_lt {r D₁ D₂ : α} (hr : 0 < r) (h₁ : 0 < D₁)
    (h : D₁ < D₂) : calculateDiffusionTime r D₂ < calculateDiffusionTime r D₁ := by
  rw [calculateDiffusionTime_eq, calculateDiffusionTime_eq]
  have hc : (0 : α) < 1e-9 := nm_pos
  have hp : 0 < (r * (1e-9 : α)) ^ 2 := pow_pos (mul_pos hr hc) 2
  exact div_lt_div_of_pos_left hp h₁ h

end Arithmetic

section Stepper

variable {α : Type} [LinearOrderedField α]

theorem generateRadii_length (M : MathLib α) (a b : α) :
    (generateRadii M a b).length = 101 := by
  simp [generateRadii, steps]

theorem generateRadii_getElem? (M : MathLib α) (a b : α) {i : Nat} (hi : i ≤ 100) :
    (generateRadii M a b)[i]? =
      some (M.pow 10 (M.log10 a + (M.log10 b - M.log10 a) * ((i : α) / 100))) := by
  have h : i < 101 := by omega
  simp [generateRadii, steps, List.getElem?_map, List.getElem?_range, h]

theorem animate_halt (M : MathLib α) (s : State α)
    (h : s.isRunning = false ∨ s.radii.length ≤ s.currentIndex) :
    animate M s = { s with isRunning := false } := by
  unfold animate
  rw [dif_pos h]

theorem animate_halt_fields (M : MathLib α) (s : State α)
    (h : s.isRunning = false ∨ s.radii.length ≤ s.currentIndex) :
    (animate M s).isRunning = false ∧ (animate M s).currentIndex = s.currentIndex ∧
    (animate M s).radii = s.radii := by
  rw [animate_halt M s h]
  exact ⟨rfl, rfl, rfl⟩

theorem animate_step (M : MathLib α) (s : State α) (hr : s.isRunning = true)
    (hi : s.currentIndex < s.radii.length) :
    (animate M s).isRunning = true ∧
    (animate M s).currentIndex = s.currentIndex + 1 ∧
    (animate M s).animationFrame = true ∧
    (animate M s).radii = s.radii ∧
    (animate M s).maxParticleSize = s.maxParticleSize ∧
    (animate M s).minParticleSize = s.minParticleSize ∧
    (animate M s).baselineSize = s.baselineSize ∧
    (animate M s).currentDiffusionCoeff = s.currentDiffusionCoeff ∧
    (animate M s).diffusionData.labels =
      s.diffusionData.labels ++ [s.radii.get ⟨s.currentIndex, hi⟩] ∧
    (animate M s).diffusionData.times = s.diffusionData.times ++
      [calculateDiffusionTime (s.radii.get ⟨s.currentIndex, hi⟩) s.currentDiffusionCoeff] ∧
    (animate M s).improvementData.labels =
      s.improvementData.labels ++ [s.radii.get ⟨s.currentIndex, hi⟩] ∧
    (animate M s).improvementData.improvement = s.improvementData.improvement ++
      [calculateDiffusionTime s.baselineSize s.currentDiffusionCoeff /
        calculateDiffusionTime (s.radii.get ⟨s.currentIndex, hi⟩) s.currentDiffusionCoeff] := by
  have h : ¬ (s.isRunning = false ∨ s.currentIndex ≥ s.radii.length) := by
    rw [hr]; simp; exact hi
  unfold animate
  rw [dif_neg h]
  simp only []
  split_ifs <;> simp [updateAnimation, updateParticleProperties, hr]

theorem animate_radii (M : MathLib α) (s : State α) : (animate M s).radii = s.radii := by
  by_cases h : s.isRunning = false ∨ s.radii.length ≤ s.currentIndex
  · rw [animate_halt M s h]
  · have hr : s.isRunning = true := by
      cases hb : s.isRunning
      · exact absurd (Or.inl hb) h
      · rfl
    have hi : s.currentIndex < s.radii.length := by
      by_contra hc
      exact h (Or.inr (not_lt.mp hc))
    exact (animate_step M s hr hi).2.2.2.1

theorem animate_inSync (M : MathLib α) (s : State α) (h : SeriesInSync s) :
    SeriesInSync (animate M s) := by
  by_cases hh : s.isRunning = false ∨ s.radii.length ≤ s.currentIndex
  · rw [animate_halt M s hh]
    exact h
  · have hr : s.isRunning = true := by
      cases hb : s.isRunning
      · exact absurd (Or.inl hb) hh
      · rfl
    have hi : s.currentIndex < s.radii.length := by
      by_contra hc
      exact hh (Or.inr (not_lt.mp hc))
    obtain ⟨_, h2, _, _, _, _, _, _, h9, h10, h11, h12⟩ := animate_step M s hr hi
    obtain ⟨a, b, c, d⟩ := h
    refine ⟨?_, ?_, ?_, ?_⟩
    · rw [h9, h2, List.length_append, a]; rfl
    · rw [h10, h2, List.length_append, b]; rfl
    · rw [h11, h2, List.length_append, c]; rfl
    · rw [h12, h2, List.length_append, d]; rfl

theorem toggleSimulation_inSync (M : MathLib α) (s : State α) (h : SeriesInSync s) :
    SeriesInSync (toggleSimulation M s) := by
  unfold toggleSimulation
  simp only []
  split_ifs
  · exact animate_inSync M _ h
  · exact h
  · exact animate_inSync M _ h
  · exact h

theorem resetSimulation_inSync (M : MathLib α) (s : State α) :
    SeriesInSync (resetSimulation M s) :=
  ⟨rfl, rfl, rfl, rfl⟩

theorem pageLoad_inSync (M : MathLib α) : SeriesInSync (pageLoad M) :=
  ⟨rfl, rfl, rfl, rfl⟩

theorem apply_inSync (M : MathLib α) (s : State α) (op : Op) (h : SeriesInSync s) :
    SeriesInSync (op.apply M s) := by
  cases op
  · exact toggleSimulation_inSync M s h
  · exact animate_inSync M s h
  · exact resetSimulation_inSync M s

theorem runOps_inSync (M : MathLib α) (ops : List Op) (s : State α) (h : SeriesInSync s) :
    SeriesInSync (runOps M ops s) := by
  induction ops generalizing s with
  | nil => exact h
  | cons op rest ih => exact ih (op.apply M s) (apply_inSync M s op h)

theorem toggleSimulation_start (M : MathLib α) (s : State α) (hr : s.isRunning = false)
    (hne : s.radii.length ≠ 0) :
    toggleSimulation M s = animate M { s with isRunning := true } := by
  unfold toggleSimulation
  simp [hne, hr]

theorem toggleSimulation_pause (M : MathLib α) (s : State α) (hr : s.isRunning = true)
    (hne : s.radii.length ≠ 0) :
    toggleSimulation M s = { s with isRunning := false } := by
  unfold toggleSimulation
  simp [hne, hr]

theorem toggleSimulation_radii_length (M : MathLib α) (s : State α)
    (h : s.radii.length = 101) : (toggleSimulation M s).radii.length = 101 := by
  have hne : s.radii.length ≠ 0 := by rw [h]; decide
  cases hb : s.isRunning
  · rw [toggleSimulation_start M s hb hne, animate_radii]
    exact h
  · rw [toggleSimulation_pause M s hb hne]
    exact h

theorem runOps_radii_length (M : MathLib α) (ops : List Op) (s : State α)
    (h : s.radii.length = 101) : (runOps M ops s).radii.length = 101 := by
  induction ops generalizing s with
  | nil => exact h
  | cons op rest ih =>
    apply ih (op.apply M s)
    cases op
    · exact toggleSimulation_radii_length M s h
    · show (animate M s).radii.length = 101
      rw [animate_radii]; exact h
    · exact generateRadii_length M _ _

theorem runOps_pageLoad_radii_ne_nil (M : MathLib α) (ops : List Op) :
    (runOps M ops (pageLoad M)).radii ≠ [] := by
  intro h
  have hl := runOps_radii_length M ops (pageLoad M) (generateRadii_length M _ _)
  rw [h, List.length_nil] at hl
  exact absurd hl (by decide)

theorem runOps_ticks (M : MathLib α) (n : Nat) (s : State α) (hr : s.isRunning = true)
    (hn : s.currentIndex + n ≤ s.radii.length) :
    (runOps M (List.replicate n Op.tick) s).isRunning = true ∧
    (runOps M (List.replicate n Op.tick) s).currentIndex = s.currentIndex + n ∧
    (runOps M (List.replicate n Op.tick) s).radii = s.radii := by
  induction n generalizing s with
  | zero => exact ⟨hr, rfl, rfl⟩
  | succ k ih =>
    have hi : s.currentIndex < s.radii.length := by omega
    obtain ⟨h1, h2, _, h4, _⟩ := animate_step M s hr hi
    have hk := ih (animate M s) h1 (by rw [h2, h4]; omega)
    rw [h2, h4] at hk
    have e : runOps M (List.replicate (k + 1) Op.tick) s =
        runOps M (List.replicate k Op.tick) (animate M s) := rfl
    rw [e]
    refine ⟨hk.1, ?_, hk.2.2⟩
    rw [hk.2.1]; omega

theorem pageLoad_fields (M : MathLib α) :
    (pageLoad M).isRunning = false ∧ (pageLoad M).currentIndex = 0 ∧
    (pageLoad M).radii = generateRadii M 1 1000 ∧
    (pageLoad M).minParticleSize = 1 ∧ (pageLoad M).maxParticleSize = 1000 ∧
    (pageLoad M).baselineSize = 10000 ∧ (pageLoad M).currentDiffusionCoeff = 1e-14 :=
  ⟨rfl, rfl, rfl, rfl, rfl, rfl, rfl⟩

theorem ticksFromIdle_pageLoad (M : MathLib α) (N : Nat) (hN : N ≤ 101) :
    (runOps M (ticksFromIdle N) (pageLoad M)).currentIndex = N ∧
    (runOps M (ticksFromIdle N) (pageLoad M)).radii = generateRadii M 1 1000 ∧
    (N ≠ 0 → (runOps M (ticksFromIdle N) (pageLoad M)).isRunning = true) := by
  cases N with
  | zero => exact ⟨rfl, rfl, fun h => absurd rfl h⟩
  | succ n =>
    have hlen : (pageLoad M).radii.length = 101 := generateRadii_length M _ _
    have e : runOps M (ticksFromIdle (n + 1)) (pageLoad M) =
        runOps M (List.replicate n Op.tick) (toggleSimulation M (pageLoad M)) := rfl
    rw [e, toggleSimulation_start M _ rfl (by rw [hlen]; decide)]
    have h0 : ({ pageLoad M with isRunning := true } : State α).currentIndex
        < ({ pageLoad M with isRunning := true } : State α).radii.length := by
      show 0 < (pageLoad M).radii.length
      rw [hlen]; decide
    obtain ⟨h1, h2, _, h4, _⟩ := animate_step M { pageLoad M with isRunning := true } rfl h0
    have hk := runOps_ticks M n _ h1 (by
      rw [h2, h4]
      show 0 + 1 + n ≤ (pageLoad M).radii.length
      rw [hlen]; omega)
    refine ⟨?_, ?_, fun _ => hk.1⟩
    · rw [hk.2.1, h2]
      show 0 + 1 + n = n + 1
      omega
    · rw [hk.2.2, h4]
      rfl

theorem resetSimulation_fields (M : MathLib α) (s : State α) :
    (resetSimulation M s).isRunning = false ∧
    (resetSimulation M s).currentIndex = 0 ∧
    (resetSimulation M s).radii = generateRadii M s.minParticleSize s.maxParticleSize ∧
    (resetSimulation M s).minParticleSize = s.minParticleSize ∧
    (resetSimulation M s).maxParticleSize = s.maxParticleSize :=
  ⟨rfl, rfl, rfl, rfl, rfl⟩

theorem onMax_accept (M : MathLib α) (s : State α) (v : α) (h1 : 10 ≤ v) (h2 : v ≤ 10000) :
    onMaxParticleSizeChange M (some v) s =
      if s.isRunning = false then resetSimulation M { s with maxParticleSize := v }
      else { s with maxParticleSize := v } := by
  simp [onMaxParticleSizeChange, h1, h2]

theorem onMin_accept (M : MathLib α) (s : State α) (v : α) (h1 : 0.1 ≤ v) (h2 : v ≤ 1000)
    (h3 : v < s.maxParticleSize) :
    onMinParticleSizeChange M (some v) s =
      if s.isRunning = false then resetSimulation M { s with minParticleSize := v }
      else { s with minParticleSize := v } := by
  simp [onMinParticleSizeChange, h1, h2, h3]

/-- C3: after any finite sequence of `toggleSimulation`, `animate` and
`resetSimulation` applied to the loaded state, the four series
`diffusionData.labels`, `diffusionData.times`, `improvementData.labels` and
`improvementData.improvement` all have length `currentIndex`; and after `N`
ticks from the idle state, `0 ≤ N ≤ 101`, that length and `currentIndex` are `N`. -/
theorem series_lengths_eq_currentIndex (M : MathLib α) :
    (∀ ops : List Op,
      (runOps M ops (pageLoad M)).diffusionData.labels.length
          = (runOps M ops (pageLoad M)).currentIndex ∧
      (runOps M ops (pageLoad M)).diffusionData.times.length
          = (runOps M ops (pageLoad M)).currentIndex ∧
      (runOps M ops (pageLoad M)).improvementData.labels.length
          = (runOps M ops (pageLoad M)).currentIndex ∧
      (runOps M ops (pageLoad M)).improvementData.improvement.length
          = (runOps M ops (pageLoad M)).currentIndex) ∧
    (∀ N : Nat, N ≤ 101 →
      (runOps M (ticksFromIdle N) (pageLoad M)).currentIndex = N ∧
      (runOps M (ticksFromIdle N) (pageLoad M)).diffusionData.labels.length = N ∧
      (runOps M (ticksFromIdle N) (pageLoad M)).diffusionData.times.length = N ∧
      (runOps M (ticksFromIdle N) (pageLoad M)).improvementData.labels.length = N ∧
      (runOps M (ticksFromIdle N) (pageLoad M)).improvementData.improvement.length = N) := by
  refine ⟨fun ops => runOps_inSync M ops _ (pageLoad_inSync M), fun N hN => ?_⟩
  obtain ⟨a, b, c, d⟩ := runOps_inSync M (ticksFromIdle N) _ (pageLoad_inSync M)
  have hc := (ticksFromIdle_pageLoad M N hN).1
  exact ⟨hc, a.trans hc, b.trans hc, c.trans hc, d.trans hc⟩

/-- C4 (amended): in a running state whose index is the last one, the call of
`animate` appends the last point and advances `currentIndex` to the length of
`radii`, but it leaves `isRunning` true and requests one more frame; it is the
next call of `animate` that clears `isRunning`, and that call changes nothing else. -/
theorem animate_completes_on_next_call (M : MathLib α) (s : State α)
    (hr : s.isRunning = true) (hi : s.currentIndex + 1 = s.radii.length) :
    (animate M s).currentIndex = (animate M s).radii.length ∧
    (animate M s).isRunning = true ∧
    (animate M s).animationFrame = true ∧
    animate M (animate M s) = { animate M s with isRunning := false } ∧
    (animate M (animate M s)).isRunning = false ∧
    (animate M (animate M s)).currentIndex = (animate M (animate M s)).radii.length := by
  have hlt : s.currentIndex < s.radii.length := by omega
  obtain ⟨h1, h2, h3, h4, _⟩ := animate_step M s hr hlt
  have hlen : (animate M s).currentIndex = (animate M s).radii.length := by
    rw [h2, h4]; exact hi
  have hhalt := animate_halt M (animate M s) (Or.inr (le_of_eq hlen.symm))
  refine ⟨hlen, h1, h3, hhalt, ?_, ?_⟩
  · rw [hhalt]
  · rw [hhalt]; exact hlen

/-- C5: in every state with `currentIndex ≥ radii.length` a call of `animate`
leaves `currentIndex` and the four series unchanged and leaves `isRunning`
false.  The same holds for the call that `toggleSimulation` makes on start, in
every state, `radii` being the sequence that `toggleSimulation` hands to
`animate`; when `radii` is not empty, as in every state after page load, this
is the `radii` of the state in which the button is pressed. -/
theorem tick_at_end_changes_nothing (M : MathLib α) (s : State α) :
    (s.radii.length ≤ s.currentIndex →
      (animate M s).currentIndex = s.currentIndex ∧
      (animate M s).diffusionData.labels = s.diffusionData.labels ∧
      (animate M s).diffusionData.times = s.diffusionData.times ∧
      (animate M s).improvementData.labels = s.improvementData.labels ∧
      (animate M s).improvementData.improvement = s.improvementData.improvement ∧
      (animate M s).isRunning = false) ∧
    (s.isRunning = false → (toggleSimulation M s).radii.length ≤ s.currentIndex →
      (toggleSimulation M s).currentIndex = s.currentIndex ∧
      (toggleSimulation M s).diffusionData.labels = s.diffusionData.labels ∧
      (toggleSimulation M s).diffusionData.times = s.diffusionData.times ∧
      (toggleSimulation M s).improvementData.labels = s.improvementData.labels ∧
      (toggleSimulation M s).improvementData.improvement = s.improvementData.improvement ∧
      (toggleSimulation M s).isRunning = false) ∧
    (s.isRunning = false → s.radii ≠ [] → s.radii.length ≤ s.currentIndex →
      (toggleSimulation M s).radii = s.radii ∧
      (toggleSimulation M s).currentIndex = s.currentIndex ∧
      (toggleSimulation M s).diffusionData.labels = s.diffusionData.labels ∧
      (toggleSimulation M s).diffusionData.times = s.diffusionData.times ∧
      (toggleSimulation M s).improvementData.labels = s.improvementData.labels ∧
      (toggleSimulation M s).improvementData.improvement = s.improvementData.improvement ∧
      (toggleSimulation M s).isRunning = false) := by
  refine ⟨?_, ?_, ?_⟩
  · intro h
    rw [animate_halt M s (Or.inr h)]
    exact ⟨rfl, rfl, rfl, rfl, rfl, rfl⟩
  rotate_left
  · intro hr hne hlen
    have hl : s.radii.length ≠ 0 := fun h => hne (List.length_eq_zero.mp h)
    rw [toggleSimulation_start M s hr hl,
      animate_halt M { s with isRunning := true } (Or.inr hlen)]
    exact ⟨rfl, rfl, rfl, rfl, rfl, rfl, rfl⟩
  · intro hr hlen
    have e : toggleSimulation M s = animate M
        { (if s.radii.length = 0 then
            { s with radii := generateRadii M s.minParticleSize s.maxParticleSize }
          else s) with isRunning := true } := by
      unfold toggleSimulation
      split_ifs <;> simp [hr]
    rw [e] at hlen ⊢
    rw [animate_radii] at hlen
    rw [animate_halt M _ (Or.inr (by split_ifs at hlen ⊢ <;> exact hlen))]
    split_ifs <;> exact ⟨rfl, rfl, rfl, rfl, rfl, rfl⟩

/-- C6: from every state `resetSimulation` yields `isRunning = false`,
`currentIndex = 0`, four empty series and `radii = generateRadii()` for the
current `minParticleSize` and `maxParticleSize`, which it does not change; when
these two are the ones of the page load, `radii` is the sequence built on load. -/
theorem resetSimulation_returns_to_idle (M : MathLib α) (s : State α) :
    (resetSimulation M s).isRunning = false ∧
    (resetSimulation M s).currentIndex = 0 ∧
    (resetSimulation M s).diffusionData.labels = [] ∧
    (resetSimulation M s).diffusionData.times = [] ∧
    (resetSimulation M s).improvementData.labels = [] ∧
    (resetSimulation M s).improvementData.improvement = [] ∧
    (resetSimulation M s).minParticleSize = s.minParticleSize ∧
    (resetSimulation M s).maxParticleSize = s.maxParticleSize ∧
    (resetSimulation M s).radii = generateRadii M s.minParticleSize s.maxParticleSize ∧
    (s.minParticleSize = (pageLoad M).minParticleSize →
      s.maxParticleSize = (pageLoad M).maxParticleSize →
      (resetSimulation M s).radii = (pageLoad M).radii) := by
  refine ⟨rfl, rfl, rfl, rfl, rfl, rfl, rfl, rfl, rfl, fun h1 h2 => ?_⟩
  show generateRadii M s.minParticleSize s.maxParticleSize = (pageLoad M).radii
  rw [h1, h2]
  rfl

/-- C7: evaluation at the failing input.  From the loaded configuration
(`minParticleSize = 1`, `maxParticleSize = 1000`) the `change` events
`minParticleSize ← 500` and then `maxParticleSize ← 10` are both accepted and
leave `minParticleSize = 500`, `maxParticleSize = 10`. -/
theorem size_changes_invert_range (M : MathLib α) :
    (runChanges M [SizeChange.minSize (some 500), SizeChange.maxSize (some 10)]
      (pageLoad M)).minParticleSize = 500 ∧
    (runChanges M [SizeChange.minSize (some 500), SizeChange.maxSize (some 10)]
      (pageLoad M)).maxParticleSize = 10 ∧
    ¬ ((runChanges M [SizeChange.minSize (some 500), SizeChange.maxSize (some 10)]
      (pageLoad M)).minParticleSize <
       (runChanges M [SizeChange.minSize (some 500), SizeChange.maxSize (some 10)]
      (pageLoad M)).maxParticleSize) := by
  have e1 : onMinParticleSizeChange M (some 500) (pageLoad M) =
      resetSimulation M { pageLoad M with minParticleSize := 500 } := by
    rw [onMin_accept M _ 500 (by norm_num) (by norm_num)
      (by show (500 : α) < 1000; norm_num)]
    rfl
  have e2 : runChanges M [SizeChange.minSize (some 500), SizeChange.maxSize (some 10)]
      (pageLoad M) = resetSimulation M
        { resetSimulation M { pageLoad M with minParticleSize := 500 } with
          maxParticleSize := 10 } := by
    show onMaxParticleSizeChange M (some 10) (onMinParticleSizeChange M (some 500) (pageLoad M))
      = _
    rw [e1, onMax_accept M _ 10 (by norm_num) (by norm_num)]
    rfl
  rw [e2]
  refine ⟨rfl, rfl, ?_⟩
  show ¬ ((500 : α) < 10)
  norm_num

/-- C8 (amended): an accepted `change` of `maxParticleSize` or of
`minParticleSize` stores the new value; when the simulation is not running the
handler resets, so that afterwards `radii` is `generateRadii()` of the new
pair, and when it is running `radii` is left as it was. -/
theorem accepted_size_change_regenerates_unless_running (M : MathLib α) (s : State α) (v : α) :
    (10 ≤ v → v ≤ 10000 →
      (onMaxParticleSizeChange M (some v) s).maxParticleSize = v ∧
      (onMaxParticleSizeChange M (some v) s).minParticleSize = s.minParticleSize ∧
      (s.isRunning = false → (onMaxParticleSizeChange M (some v) s).radii =
        generateRadii M s.minParticleSize v) ∧
      (s.isRunning = true → (onMaxParticleSizeChange M (some v) s).radii = s.radii)) ∧
    (0.1 ≤ v → v ≤ 1000 → v < s.maxParticleSize →
      (onMinParticleSizeChange M (some v) s).minParticleSize = v ∧
      (onMinParticleSizeChange M (some v) s).maxParticleSize = s.maxParticleSize ∧
      (s.isRunning = false → (onMinParticleSizeChange M (some v) s).radii =
        generateRadii M v s.maxParticleSize) ∧
      (s.isRunning = true → (onMinParticleSizeChange M (some v) s).radii = s.radii)) := by
  constructor
  · intro h1 h2
    rw [onMax_accept M s v h1 h2]
    cases hb : s.isRunning
    · exact ⟨rfl, rfl, fun _ => rfl, fun h => absurd h (by decide)⟩
    · exact ⟨rfl, rfl, fun h => absurd h (by decide), fun _ => rfl⟩
  · intro h1 h2 h3
    rw [onMin_accept M s v h1 h2 h3]
    cases hb : s.isRunning
    · exact ⟨rfl, rfl, fun _ => rfl, fun h => absurd h (by decide)⟩
    · exact ⟨rfl, rfl, fun h => absurd h (by decide), fun _ => rfl⟩

theorem animate_config (M : MathLib α) (s : State α) :
    (animate M s).minParticleSize = s.minParticleSize ∧
    (animate M s).maxParticleSize = s.maxParticleSize ∧
    (animate M s).baselineSize = s.baselineSize ∧
    (animate M s).currentDiffusionCoeff = s.currentDiffusionCoeff := by
  by_cases h : s.isRunning = false ∨ s.radii.length ≤ s.currentIndex
  · rw [animate_halt M s h]
    exact ⟨rfl, rfl, rfl, rfl⟩
  · have hr : s.isRunning = true := by
      cases hb : s.isRunning
      · exact absurd (Or.inl hb) h
      · rfl
    have hi : s.currentIndex < s.radii.length := by
      by_contra hc
      exact h (Or.inr (not_lt.mp hc))
    obtain ⟨_, _, _, _, h5, h6, h7, h8, _⟩ := animate_step M s hr hi
    exact ⟨h6, h5, h7, h8⟩

theorem toggleSimulation_config (M : MathLib α) (s : State α) (hne : s.radii.length ≠ 0) :
    (toggleSimulation M s).minParticleSize = s.minParticleSize ∧
    (toggleSimulation M s).maxParticleSize = s.maxParticleSize ∧
    (toggleSimulation M s).radii = s.radii := by
  cases hb : s.isRunning
  · rw [toggleSimulation_start M s hb hne]
    exact ⟨(animate_config M _).1, (animate_config M _).2.1, animate_radii M _⟩
  · rw [toggleSimulation_pause M s hb hne]
    exact ⟨rfl, rfl, rfl⟩

theorem animate_improvement (M : MathLib α) (s : State α) (r : α)
    (hrun : s.isRunning = true) (hget : s.radii[s.currentIndex]? = some r) :
    (animate M s).improvementData.improvement = s.improvementData.improvement ++
      [calculateDiffusionTime s.baselineSize s.currentDiffusionCoeff /
        calculateDiffusionTime r s.currentDiffusionCoeff] := by
  obtain ⟨hi, hr⟩ := List.getElem?_eq_some.1 hget
  have h := (animate_step M s hrun hi).2.2.2.2.2.2.2.2.2.2.2
  rw [h, List.get_eq_getElem, hr]

theorem currentRadiusOf_eq (s : State α) (v : α)
    (h : s.radii[min s.currentIndex (s.radii.length - 1)]? = some v) (hv : v ≠ 0) :
    currentRadiusOf s = v := by
  unfold currentRadiusOf
  cases hL : s.radii with
  | nil => rw [hL] at h; simp at h
  | cons a l =>
    rw [hL] at h
    simp only [h, if_neg hv]

/-- C2 (amended): in exact arithmetic, that is in every ordered field and so
over the reals, ignoring floating-point rounding and overflow: for `r > 0` and
`D > 0` and every baseline `b`, the ratio
`calculateDiffusionTime(b, D) / calculateDiffusionTime(r, D)` is `(b / r)^2`,
for every other `D' > 0` as well; it is the value `animate` appends to
`improvementData.improvement`; and for `r = 1000`, `b = 10000`, `D = 1e-14` it is `100`. -/
theorem improvement_factor_eq_sq_ratio (r b D : α) (hr : 0 < r) (hD : 0 < D) :
    calculateDiffusionTime b D / calculateDiffusionTime r D = (b / r) ^ 2 ∧
    (∀ D' : α, 0 < D' →
      calculateDiffusionTime b D' / calculateDiffusionTime r D' =
        calculateDiffusionTime b D / calculateDiffusionTime r D) ∧
    (∀ (M : MathLib α) (s : State α), s.isRunning = true →
      s.radii[s.currentIndex]? = some r → s.baselineSize = b → s.currentDiffusionCoeff = D →
      (animate M s).improvementData.improvement =
        s.improvementData.improvement ++ [(b / r) ^ 2]) ∧
    calculateDiffusionTime (10000 : α) 1e-14 / calculateDiffusionTime 1000 1e-14 = 100 := by
  have h := calculateDiffusionTime_ratio (b := b) (ne_of_gt hr) (ne_of_gt hD)
  refine ⟨h, fun D' hD' => ?_, fun M s hrun hget hb hc => ?_, ?_⟩
  · rw [h, calculateDiffusionTime_ratio (ne_of_gt hr) (ne_of_gt hD')]
  · rw [animate_improvement M s r hrun hget, hb, hc, h]
  · rw [calculateDiffusionTime_ratio (by norm_num) (by norm_num)]
    norm_num

/-- C9: `calculateDiffusionTime(r, D)` is `(r * 1e-9)^2 / D`; it is strictly
increasing in `r > 0` for fixed `D > 0` and strictly decreasing in `D > 0` for
fixed `r > 0`; `calculateDiffusionTime(1000, 1e-14) = 100` and
`calculateDiffusionTime(10000, 1e-14) = 10000`. -/
theorem calculateDiffusionTime_formula_monotone (r r' D D' : α) :
    calculateDiffusionTime r D = (r * 1e-9) ^ 2 / D ∧
    (0 < D → 0 < r → r < r' → calculateDiffusionTime r D < calculateDiffusionTime r' D) ∧
    (0 < r → 0 < D → D < D' → calculateDiffusionTime r D' < calculateDiffusionTime r D) ∧
    calculateDiffusionTime (1000 : α) 1e-14 = 100 ∧
    calculateDiffusionTime (10000 : α) 1e-14 = 10000 := by
  refine ⟨calculateDiffusionTime_eq r D,
    fun hD hr h => calculateDiffusionTime_lt_of_radius_lt hD hr h,
    fun hr hD h => calculateDiffusionTime_lt_of_coeff_lt hr hD h, ?_, ?_⟩
  · rw [calculateDiffusionTime_eq]; norm_num
  · rw [calculateDiffusionTime_eq]; norm_num

/-- C9 (witness): radii `1000 < 10000` at `D = 1e-14`, and coefficients
`1e-14 < 1e-13` at radius `1000`, over the rationals. -/
theorem calculateDiffusionTime_formula_monotone_witness :
    ((0 : ℚ) < 1e-14 ∧ (0 : ℚ) < 1000 ∧ (1000 : ℚ) < 10000 ∧
      calculateDiffusionTime (1000 : ℚ) 1e-14 < calculateDiffusionTime 10000 1e-14) ∧
    ((0 : ℚ) < 1000 ∧ (0 : ℚ) < 1e-14 ∧ (1e-14 : ℚ) < 1e-13 ∧
      calculateDiffusionTime (1000 : ℚ) 1e-13 < calculateDiffusionTime 1000 1e-14) :=
  ⟨⟨by norm_num, by norm_num, by norm_num,
      (calculateDiffusionTime_formula_monotone (1000 : ℚ) 10000 1e-14 1e-13).2.1
        (by norm_num) (by norm_num) (by norm_num)⟩,
    ⟨by norm_num, by norm_num, by norm_num,
      (calculateDiffusionTime_formula_monotone (1000 : ℚ) 10000 1e-14 1e-13).2.2.1
        (by norm_num) (by norm_num) (by norm_num)⟩⟩

end Stepper

section RealNumbers

theorem realRadius_zero (a b : ℝ) (ha : 0 < a) :
    (10 : ℝ) ^ (Real.logb 10 a + (Real.logb 10 b - Real.logb 10 a) * (((0 : ℕ) : ℝ) / 100))
      = a := by
  have e : Real.logb 10 a + (Real.logb 10 b - Real.logb 10 a) * (((0 : ℕ) : ℝ) / 100)
      = Real.logb 10 a := by
    push_cast; ring
  rw [e]
  exact Real.rpow_logb (by norm_num) (by norm_num) ha

theorem realRadius_last (a b : ℝ) (hb : 0 < b) :
    (10 : ℝ) ^ (Real.logb 10 a + (Real.logb 10 b - Real.logb 10 a) * (((100 : ℕ) : ℝ) / 100))
      = b := by
  have e : Real.logb 10 a + (Real.logb 10 b - Real.logb 10 a) * (((100 : ℕ) : ℝ) / 100)
      = Real.logb 10 b := by
    push_cast; ring
  rw [e]
  exact Real.rpow_logb (by norm_num) (by norm_num) hb

theorem realRadius_lt (a b : ℝ) (ha : 0 < a) (hab : a < b) (i : ℕ) :
    (10 : ℝ) ^ (Real.logb 10 a + (Real.logb 10 b - Real.logb 10 a) * ((i : ℝ) / 100)) <
    (10 : ℝ) ^ (Real.logb 10 a +
      (Real.logb 10 b - Real.logb 10 a) * (((i + 1 : ℕ) : ℝ) / 100)) := by
  rw [Real.rpow_lt_rpow_left_iff (by norm_num)]
  have hl : Real.logb 10 a < Real.logb 10 b := Real.logb_lt_logb (by norm_num) ha hab
  have hd : 0 < Real.logb 10 b - Real.logb 10 a := sub_pos.mpr hl
  have hi : (i : ℝ) / 100 < ((i + 1 : ℕ) : ℝ) / 100 := by
    push_cast
    linarith
  have := mul_lt_mul_of_pos_left hi hd
  linarith

theorem real_generateRadii_getElem? (a b : ℝ) {i : ℕ} (hi : i ≤ 100) :
    (generateRadii realMath a b)[i]? =
      some ((10 : ℝ) ^ (Real.logb 10 a + (Real.logb 10 b - Real.logb 10 a) * ((i : ℝ) / 100))) :=
  generateRadii_getElem? realMath a b hi

/-- C1: for real `0 < minParticleSize < maxParticleSize`, `generateRadii`
returns exactly 101 values, the `i`-th being
`10 ^ (log10 min + (log10 max - log10 min) * i / 100)`; the first is
`minParticleSize`, the last `maxParticleSize`, and each is smaller than the next. -/
theorem generateRadii_log_spaced (minP maxP : ℝ) (h0 : 0 < minP) (h1 : minP < maxP) :
    (generateRadii realMath minP maxP).length = 101 ∧
    (∀ i : ℕ, i ≤ 100 → (generateRadii realMath minP maxP)[i]? =
      some ((10 : ℝ) ^
        (Real.logb 10 minP + (Real.logb 10 maxP - Real.logb 10 minP) * ((i : ℝ) / 100)))) ∧
    (generateRadii realMath minP maxP)[0]? = some minP ∧
    (generateRadii realMath minP maxP)[100]? = some maxP ∧
    (∀ i : ℕ, i < 100 → ∀ x y : ℝ,
      (generateRadii realMath minP maxP)[i]? = some x →
      (generateRadii realMath minP maxP)[i + 1]? = some y → x < y) := by
  refine ⟨generateRadii_length _ _ _, fun i hi => real_generateRadii_getElem? minP maxP hi,
    ?_, ?_, ?_⟩
  · rw [real_generateRadii_getElem? minP maxP (Nat.zero_le 100), realRadius_zero minP maxP h0]
  · rw [real_generateRadii_getElem? minP maxP (le_refl 100),
      realRadius_last minP maxP (lt_trans h0 h1)]
  · intro i hi x y hx hy
    rw [real_generateRadii_getElem? minP maxP (le_of_lt hi)] at hx
    rw [real_generateRadii_getElem? minP maxP (Nat.succ_le_of_lt hi)] at hy
    rw [← Option.some.inj hx, ← Option.some.inj hy]
    exact realRadius_lt minP maxP h0 h1 i

/-- C1 (witness): the default pair `(1, 1000)`. -/
theorem generateRadii_log_spaced_witness :
    (0 : ℝ) < 1 ∧ (1 : ℝ) < 1000 ∧
    (generateRadii realMath 1 1000).length = 101 ∧
    (generateRadii realMath 1 1000)[0]? = some 1 ∧
    (generateRadii realMath 1 1000)[100]? = some 1000 :=
  ⟨by norm_num, by norm_num,
    (generateRadii_log_spaced 1 1000 (by norm_num) (by norm_num)).1,
    (generateRadii_log_spaced 1 1000 (by norm_num) (by norm_num)).2.2.1,
    (generateRadii_log_spaced 1 1000 (by norm_num) (by norm_num)).2.2.2.1⟩

theorem F64.log2Aux_eq (fuel n : Nat) (h : n ≤ fuel) : F64.log2Aux fuel n = Nat.log2 n := by
  induction fuel generalizing n with
  | zero =>
    have h0 : n = 0 := Nat.le_zero.mp h
    subst h0
    rw [Nat.log2_zero]
    rfl
  | succ f ih =>
    unfold F64.log2Aux
    rw [Nat.log2]
    by_cases h2 : n < 2
    · rw [if_pos h2, if_neg (by omega)]
    · rw [if_neg h2, if_pos (by omega), ih (n / 2) (by omega)]

theorem F64.log2_eq (n : Nat) : F64.log2 n = Nat.log2 n :=
  F64.log2Aux_eq n n (le_refl n)

theorem animate_appends_improvementFactor {α : Type} [LinearOrderedField α] (M : MathLib α)
    (s : State α) (r : α) (hrun : s.isRunning = true)
    (hget : s.radii[s.currentIndex]? = some r) :
    (animate M s).improvementData.improvement = s.improvementData.improvement ++
      [improvementFactor r s.baselineSize s.currentDiffusionCoeff] :=
  animate_improvement M s r hrun hget

/-- C2 (counterexample): on the doubles, at the claim's own example `r = 1000`,
`b = 10000`, `D = 1e-14`, the improvement factor is `99.99999999999997`, two
units in the last place below `100`, which is also the double `(b / r)^2`; at
`r = 1`, `b = 10000` it is `100000000.00000001` for `D = 1e-14` and
`100000000` for `D = 1e-13`, so it depends on `D`; and for `D = 1e-320` it is
`Infinity`. -/
theorem improvementFactor_of_doubles_is_rounded :
    improvementFactor (1000 : F64) 10000 1e-14 = F64.fin ((100 * 2 ^ 46 - 2) * 2 ^ 1028) ∧
    (100 : F64) = F64.fin (100 * 2 ^ 46 * 2 ^ 1028) ∧
    ((10000 : F64) / 1000) * ((10000 : F64) / 1000) = 100 ∧
    improvementFactor (1000 : F64) 10000 1e-14 ≠ 100 ∧
    improvementFactor (1000 : F64) 10000 1e-14 ≠ ((10000 : F64) / 1000) * ((10000 : F64) / 1000) ∧
    improvementFactor (1 : F64) 10000 1e-14 = F64.fin ((10 ^ 8 * 2 ^ 26 + 1) * 2 ^ 1048) ∧
    improvementFactor (1 : F64) 10000 1e-13 = F64.fin (10 ^ 8 * 2 ^ 26 * 2 ^ 1048) ∧
    improvementFactor (1 : F64) 10000 1e-14 ≠ improvementFactor (1 : F64) 10000 1e-13 ∧
    improvementFactor (1 : F64) 10000 1e-320 = F64.inf := by
  decide!

/-- C2 (witness): at `r = 1`, `b = 10000`, `D = 1e-14` the ratio is
`(10000 / 1)^2`, and it is the one value that the click on start appends to
`improvementData.improvement` in the loaded state, whose first radius is `1`. -/
theorem improvement_factor_eq_sq_ratio_witness :
    (0 : ℝ) < 1 ∧ (0 : ℝ) < 1e-14 ∧
    calculateDiffusionTime (10000 : ℝ) 1e-14 / calculateDiffusionTime 1 1e-14
      = (10000 / 1) ^ 2 ∧
    (toggleSimulation realMath (pageLoad realMath)).improvementData.improvement
      = [(10000 / 1) ^ 2] := by
  have hne : (pageLoad realMath).radii.length ≠ 0 := by
    show (generateRadii realMath 1 1000).length ≠ 0
    rw [generateRadii_length]; decide
  have hget : ({ pageLoad realMath with isRunning := true } : State ℝ).radii[
      ({ pageLoad realMath with isRunning := true } : State ℝ).currentIndex]? = some 1 := by
    show (generateRadii realMath 1 1000)[0]? = some 1
    rw [real_generateRadii_getElem? 1 1000 (Nat.zero_le 100),
      realRadius_zero 1 1000 (by norm_num)]
  have h := improvement_factor_eq_sq_ratio (1 : ℝ) 10000 1e-14 (by norm_num) (by norm_num)
  refine ⟨by norm_num, by norm_num, h.1, ?_⟩
  rw [toggleSimulation_start realMath _ rfl hne]
  exact h.2.2.1 realMath _ rfl hget rfl rfl

theorem real_generateRadii_ne (a b c : ℝ) (hb : 0 < b) (hc : 0 < c) (hbc : b ≠ c) :
    generateRadii realMath a b ≠ generateRadii realMath a c := by
  intro h
  have h100 : (generateRadii realMath a b)[100]? = (generateRadii realMath a c)[100]? := by rw [h]
  rw [real_generateRadii_getElem? a b (le_refl 100), real_generateRadii_getElem? a c (le_refl 100),
    realRadius_last a b hb, realRadius_last a c hc] at h100
  exact hbc (Option.some.inj h100)

theorem real_currentRadiusOf_reset (s : State ℝ) (h : 0 < s.minParticleSize) :
    currentRadiusOf (resetSimulation realMath s) = s.minParticleSize := by
  apply currentRadiusOf_eq
  · show (generateRadii realMath s.minParticleSize s.maxParticleSize)[min 0
        ((generateRadii realMath s.minParticleSize s.maxParticleSize).length - 1)]? = _
    rw [Nat.zero_min, real_generateRadii_getElem? _ _ (Nat.zero_le 100),
      realRadius_zero _ _ h]
  · exact ne_of_gt h

theorem real_speed_reset (s : State ℝ) (h : 0 < s.minParticleSize) (hb : 0 ≤ s.baselineSize)
    (hD : 0 < s.currentDiffusionCoeff) :
    (resetSimulation realMath s).currentParticle.speed =
      0.003 * (s.baselineSize / s.minParticleSize) := by
  have e : (resetSimulation realMath s).currentParticle.speed = 0.003 * Real.sqrt
      (calculateDiffusionTime s.baselineSize s.currentDiffusionCoeff /
        calculateDiffusionTime (currentRadiusOf (resetSimulation realMath s))
          s.currentDiffusionCoeff) := rfl
  rw [e, real_currentRadiusOf_reset s h,
    calculateDiffusionTime_ratio (ne_of_gt h) (ne_of_gt hD),
    Real.sqrt_sq (div_nonneg hb (le_of_lt h))]

/-- C10: evaluation at the failing input.  With `baselineSize = 10000` and
`D = 1e-14` in both states, after a reset at `minParticleSize = 1` the current
radius is `1` and `currentParticle.speed` times `calculateDiffusionTime` is
`0.003`, while after `minParticleSize ← 100` the current radius is `100` and
the product is `0.3`: the product is not constant. -/
theorem currentParticle_speed_times_time_varies :
    currentRadiusOf (resetSimulation realMath (pageLoad realMath)) = 1 ∧
    currentRadiusOf (onMinParticleSizeChange realMath (some 100) (pageLoad realMath)) = 100 ∧
    (resetSimulation realMath (pageLoad realMath)).currentParticle.speed = 30 ∧
    (onMinParticleSizeChange realMath (some 100) (pageLoad realMath)).currentParticle.speed = 0.3 ∧
    (resetSimulation realMath (pageLoad realMath)).currentParticle.speed *
      calculateDiffusionTime (currentRadiusOf (resetSimulation realMath (pageLoad realMath)))
        (resetSimulation realMath (pageLoad realMath)).currentDiffusionCoeff = 0.003 ∧
    (onMinParticleSizeChange realMath (some 100) (pageLoad realMath)).currentParticle.speed *
      calculateDiffusionTime
        (currentRadiusOf (onMinParticleSizeChange realMath (some 100) (pageLoad realMath)))
        (onMinParticleSizeChange realMath (some 100) (pageLoad realMath)).currentDiffusionCoeff
          = 0.3 ∧
    (onMinParticleSizeChange realMath (some 100) (pageLoad realMath)).baselineSize =
      (resetSimulation realMath (pageLoad realMath)).baselineSize ∧
    (onMinParticleSizeChange realMath (some 100) (pageLoad realMath)).currentDiffusionCoeff =
      (resetSimulation realMath (pageLoad realMath)).currentDiffusionCoeff := by
  have eB : onMinParticleSizeChange realMath (some 100) (pageLoad realMath) =
      resetSimulation realMath { pageLoad realMath with minParticleSize := 100 } := by
    rw [onMin_accept _ _ 100 (by norm_num) (by norm_num)
      (by show (100 : ℝ) < 1000; norm_num)]
    rfl
  have rA : currentRadiusOf (resetSimulation realMath (pageLoad realMath)) = 1 :=
    real_currentRadiusOf_reset (pageLoad realMath) (by show (0 : ℝ) < 1; norm_num)
  have rB : currentRadiusOf
      (resetSimulation realMath { pageLoad realMath with minParticleSize := 100 })
      = 100 :=
    real_currentRadiusOf_reset { pageLoad realMath with minParticleSize := 100 }
      (by show (0 : ℝ) < 100; norm_num)
  have sA : (resetSimulation realMath (pageLoad realMath)).currentParticle.speed = 30 := by
    rw [real_speed_reset (pageLoad realMath) (by show (0 : ℝ) < 1; norm_num)
      (by show (0 : ℝ) ≤ 10000; norm_num) (by show (0 : ℝ) < 1e-14; norm_num)]
    show (0.003 : ℝ) * (10000 / 1) = 30
    norm_num
  have sB : (resetSimulation realMath { pageLoad realMath with minParticleSize := 100 }).currentParticle.speed
      = 0.3 := by
    rw [real_speed_reset { pageLoad realMath with minParticleSize := 100 }
      (by show (0 : ℝ) < 100; norm_num)
      (by show (0 : ℝ) ≤ 10000; norm_num) (by show (0 : ℝ) < 1e-14; norm_num)]
    show (0.003 : ℝ) * (10000 / 100) = 0.3
    norm_num
  rw [eB]
  refine ⟨rA, rB, sA, sB, ?_, ?_, rfl, rfl⟩
  · rw [sA, rA]
    show (30 : ℝ) * calculateDiffusionTime 1 1e-14 = 0.003
    rw [calculateDiffusionTime_eq]; norm_num
  · rw [sB, rB]
    show (0.3 : ℝ) * calculateDiffusionTime 100 1e-14 = 0.3
    rw [calculateDiffusionTime_eq]; norm_num

theorem real_ticks (N : ℕ) (hN : N ≤ 101) :
    (runOps realMath (ticksFromIdle N) (pageLoad realMath)).currentIndex = N ∧
    (runOps realMath (ticksFromIdle N) (pageLoad realMath)).radii.length = 101 ∧
    (N ≠ 0 → (runOps realMath (ticksFromIdle N) (pageLoad realMath)).isRunning = true) := by
  obtain ⟨h1, h2, h3⟩ := ticksFromIdle_pageLoad realMath N hN
  refine ⟨h1, ?_, h3⟩
  rw [h2]
  exact generateRadii_length _ _ _

/-- C3 (witness): three ticks from the loaded state. -/
theorem series_lengths_eq_currentIndex_witness :
    (3 ≤ 101) ∧
    (runOps realMath (ticksFromIdle 3) (pageLoad realMath)).currentIndex = 3 ∧
    (runOps realMath (ticksFromIdle 3) (pageLoad realMath)).diffusionData.labels.length = 3 ∧
    (runOps realMath (ticksFromIdle 3) (pageLoad realMath)).diffusionData.times.length = 3 ∧
    (runOps realMath (ticksFromIdle 3) (pageLoad realMath)).improvementData.labels.length = 3 ∧
    (runOps realMath (ticksFromIdle 3) (pageLoad realMath)).improvementData.improvement.length
      = 3 :=
  ⟨by decide, (series_lengths_eq_currentIndex realMath).2 3 (by decide)⟩

/-- C4 (counterexample): after 100 ticks from the loaded state the stepper is
running with `currentIndex = 100`; the next call of `animate` advances
`currentIndex` to `radii.length = 101`, and `isRunning` is still true. -/
theorem last_tick_leaves_isRunning_true :
    (runOps realMath (ticksFromIdle 100) (pageLoad realMath)).isRunning = true ∧
    (runOps realMath (ticksFromIdle 100) (pageLoad realMath)).currentIndex = 100 ∧
    (animate realMath (runOps realMath (ticksFromIdle 100) (pageLoad realMath))).currentIndex
      = 101 ∧
    (animate realMath (runOps realMath (ticksFromIdle 100) (pageLoad realMath))).radii.length
      = 101 ∧
    (animate realMath (runOps realMath (ticksFromIdle 100) (pageLoad realMath))).isRunning
      = true := by
  obtain ⟨h1, h2, h3⟩ := real_ticks 100 (by decide)
  have hr := h3 (by decide)
  have hi : (runOps realMath (ticksFromIdle 100) (pageLoad realMath)).currentIndex <
      (runOps realMath (ticksFromIdle 100) (pageLoad realMath)).radii.length := by
    rw [h1, h2]; decide
  obtain ⟨a1, a2, _, a4, _⟩ := animate_step realMath _ hr hi
  refine ⟨hr, h1, ?_, ?_, a1⟩
  · rw [a2, h1]
  · rw [a4, h2]

/-- C4 (witness): the running state after 100 ticks from the loaded state. -/
theorem animate_completes_on_next_call_witness :
    (runOps realMath (ticksFromIdle 100) (pageLoad realMath)).isRunning = true ∧
    (runOps realMath (ticksFromIdle 100) (pageLoad realMath)).currentIndex + 1 =
      (runOps realMath (ticksFromIdle 100) (pageLoad realMath)).radii.length ∧
    (animate realMath (runOps realMath (ticksFromIdle 100) (pageLoad realMath))).isRunning = true ∧
    (animate realMath (animate realMath (runOps realMath (ticksFromIdle 100)
        (pageLoad realMath)))).isRunning = false :=
  have hr := (real_ticks 100 (by decide)).2.2 (by decide)
  have hi : (runOps realMath (ticksFromIdle 100) (pageLoad realMath)).currentIndex + 1 =
      (runOps realMath (ticksFromIdle 100) (pageLoad realMath)).radii.length := by
    rw [(real_ticks 100 (by decide)).1, (real_ticks 100 (by decide)).2.1]
  ⟨hr, hi, (animate_completes_on_next_call realMath _ hr hi).2.1,
    (animate_completes_on_next_call realMath _ hr hi).2.2.2.2.1⟩

theorem real_complete_state :
    (animate realMath (runOps realMath (ticksFromIdle 101) (pageLoad realMath))).isRunning = false ∧
    (animate realMath (runOps realMath (ticksFromIdle 101) (pageLoad realMath))).currentIndex
      = 101 ∧
    (animate realMath (runOps realMath (ticksFromIdle 101) (pageLoad realMath))).radii.length
      = 101 := by
  obtain ⟨h1, h2, _⟩ := real_ticks 101 (le_refl 101)
  obtain ⟨a1, a2, a3⟩ := animate_halt_fields realMath _ (Or.inr (by rw [h1, h2]))
  exact ⟨a1, a2.trans h1, (congrArg List.length a3).trans h2⟩

theorem real_complete_state_radii_ne_nil :
    (animate realMath (runOps realMath (ticksFromIdle 101) (pageLoad realMath))).radii ≠ [] := by
  intro h
  have hl := real_complete_state.2.2
  rw [h] at hl
  exact absurd hl (by decide : ¬ ([] : List ℝ).length = 101)

/-- C5 (witness): the state left by the call of `animate` that follows the 101
ticks is complete; one more call of `animate` and a click on start both leave
`currentIndex` where it is, and the click leaves `isRunning` false. -/
theorem tick_at_end_changes_nothing_witness :
    (animate realMath (runOps realMath (ticksFromIdle 101) (pageLoad realMath))).radii.length ≤
      (animate realMath (runOps realMath (ticksFromIdle 101) (pageLoad realMath))).currentIndex ∧
    (animate realMath (runOps realMath (ticksFromIdle 101) (pageLoad realMath))).isRunning
      = false ∧
    (animate realMath
        (animate realMath (runOps realMath (ticksFromIdle 101) (pageLoad realMath)))).currentIndex =
      (animate realMath (runOps realMath (ticksFromIdle 101) (pageLoad realMath))).currentIndex ∧
    (toggleSimulation realMath
        (animate realMath (runOps realMath (ticksFromIdle 101) (pageLoad realMath)))).currentIndex =
      (animate realMath (runOps realMath (ticksFromIdle 101) (pageLoad realMath))).currentIndex ∧
    (toggleSimulation realMath
        (animate realMath (runOps realMath (ticksFromIdle 101) (pageLoad realMath)))).isRunning
      = false :=
  have hlen : (animate realMath
        (runOps realMath (ticksFromIdle 101) (pageLoad realMath))).radii.length ≤
      (animate realMath (runOps realMath (ticksFromIdle 101)
          (pageLoad realMath))).currentIndex := by
    rw [real_complete_state.2.1, real_complete_state.2.2]
  have hr := real_complete_state.1
  have hne := real_complete_state_radii_ne_nil
  ⟨hlen, hr, ((tick_at_end_changes_nothing realMath _).1 hlen).1,
    ((tick_at_end_changes_nothing realMath _).2.2 hr hne hlen).2.1,
    ((tick_at_end_changes_nothing realMath _).2.2 hr hne hlen).2.2.2.2.2.2⟩

/-- C6 (witness): a reset while running, after a click on start in the loaded state. -/
theorem resetSimulation_returns_to_idle_witness :
    (toggleSimulation realMath (pageLoad realMath)).minParticleSize
      = (pageLoad realMath).minParticleSize ∧
    (toggleSimulation realMath (pageLoad realMath)).maxParticleSize
      = (pageLoad realMath).maxParticleSize ∧
    (resetSimulation realMath (toggleSimulation realMath (pageLoad realMath))).radii
      = (pageLoad realMath).radii :=
  have hne : (pageLoad realMath).radii.length ≠ 0 := by
    show (generateRadii realMath 1 1000).length ≠ 0
    rw [generateRadii_length]; decide
  have h := toggleSimulation_config realMath (pageLoad realMath) hne
  ⟨h.1, h.2.1,
    (resetSimulation_returns_to_idle realMath (toggleSimulation realMath
        (pageLoad realMath))).2.2.2.2.2.2.2.2.2
      h.1 h.2.1⟩

/-- C8 (counterexample): while the stepper is running, the accepted change
`maxParticleSize ← 500` stores the new value and leaves `radii` as generated
for `(1, 1000)`, which is not `generateRadii()` of the new pair `(1, 500)`. -/
theorem running_size_change_keeps_stale_radii :
    (toggleSimulation realMath (pageLoad realMath)).isRunning = true ∧
    (onMaxParticleSizeChange realMath (some 500) (toggleSimulation realMath
        (pageLoad realMath))).maxParticleSize
      = 500 ∧
    (onMaxParticleSizeChange realMath (some 500) (toggleSimulation realMath
        (pageLoad realMath))).radii ≠
      generateRadii realMath
        (onMaxParticleSizeChange realMath (some 500)
          (toggleSimulation realMath (pageLoad realMath))).minParticleSize
        (onMaxParticleSizeChange realMath (some 500)
          (toggleSimulation realMath (pageLoad realMath))).maxParticleSize := by
  have hne : (pageLoad realMath).radii.length ≠ 0 := by
    show (generateRadii realMath 1 1000).length ≠ 0
    rw [generateRadii_length]; decide
  have hc := toggleSimulation_config realMath (pageLoad realMath) hne
  have hr : (toggleSimulation realMath (pageLoad realMath)).isRunning = true :=
    (real_ticks 1 (by decide)).2.2 (by decide)
  have e : onMaxParticleSizeChange realMath (some 500) (toggleSimulation realMath
      (pageLoad realMath)) =
      { toggleSimulation realMath (pageLoad realMath) with maxParticleSize := 500 } := by
    rw [onMax_accept _ _ 500 (by norm_num) (by norm_num), hr]
    rfl
  rw [e]
  refine ⟨hr, rfl, ?_⟩
  show (toggleSimulation realMath (pageLoad realMath)).radii ≠
    generateRadii realMath (toggleSimulation realMath (pageLoad realMath)).minParticleSize 500
  rw [hc.2.2, hc.1]
  exact real_generateRadii_ne 1 1000 500 (by norm_num) (by norm_num) (by norm_num)

/-- C8 (witness): the value `500` entered in either input in the loaded state. -/
theorem accepted_size_change_regenerates_unless_running_witness :
    ((10 : ℝ) ≤ 500 ∧ (500 : ℝ) ≤ 10000 ∧
      (onMaxParticleSizeChange realMath (some 500) (pageLoad realMath)).maxParticleSize = 500) ∧
    ((0.1 : ℝ) ≤ 500 ∧ (500 : ℝ) ≤ 1000 ∧ (500 : ℝ) < (pageLoad realMath).maxParticleSize ∧
      (onMinParticleSizeChange realMath (some 500) (pageLoad realMath)).minParticleSize = 500) :=
  have h3 : (500 : ℝ) < (pageLoad realMath).maxParticleSize := by
    show (500 : ℝ) < 1000
    norm_num
  ⟨⟨by norm_num, by norm_num,
      ((accepted_size_change_regenerates_unless_running realMath (pageLoad realMath) 500).1
        (by norm_num) (by norm_num)).1⟩,
    ⟨by norm_num, by norm_num, h3,
      ((accepted_size_change_regenerates_unless_running realMath (pageLoad realMath) 500).2
        (by norm_num) (by norm_num) h3).1⟩⟩

end RealNumbers

end LithiumDiffusion
